import Mathlib

/-
  Verification development for the HackWack urban-impact scoring pipeline.

  The Python sources under backend/app are shallowly embedded below:
  floats become exact rationals, Python dicts with optional keys become
  structures of Option fields, the try/except of the congestion and
  environmental engines becomes an explicit error flag, and the Python
  built-ins round(x, n) and int(x) become round-half-to-even at n decimal
  digits and truncation toward zero.
-/

set_option maxHeartbeats 1000000

/-- Round-half-to-even of a rational to an integer, the idealisation of
the Python round applied to a rational value. -/
def rhe (q : ℚ) : ℤ :=
  if q - Int.floor q < 1/2 then Int.floor q
  else if 1/2 < q - Int.floor q then Int.floor q + 1
  else if Int.floor q % 2 = 0 then Int.floor q else Int.floor q + 1

/-- Python round(x, 2). -/
def round2 (q : ℚ) : ℚ := (rhe (q * 100) : ℚ) / 100

/-- Python round(x, 1). -/
def round1 (q : ℚ) : ℚ := (rhe (q * 10) : ℚ) / 10

/-- Python int(x): truncation toward zero. -/
def pyInt (q : ℚ) : ℤ := if q < 0 then -(Int.floor (-q)) else Int.floor q

/-- backend/app/models/schemas.py (declarations only): project type enum. -/
inductive ProjectType where
  | COMMERCIAL
  | RESIDENTIAL
  | MIXED_USE
  | INDUSTRIAL
deriving DecidableEq

/-- backend/app/models/schemas.py (declarations only): risk level enum. -/
inductive RiskLevel where
  | LOW
  | MODERATE
  | HIGH
  | SEVERE
deriving DecidableEq

/-- backend/app/models/schemas.py: the caller-supplied project description.
Optional fields model Python None; parking_spaces is a non-negative integer. -/
structure ProjectInput where
  project_type : ProjectType
  size_sqft : ℚ
  latitude : ℚ
  longitude : ℚ
  city : String
  parking_spaces : Option ℕ
  green_space_percent : Option ℚ
deriving DecidableEq

/-- Traffic sub-record of the fetched data (dict with optional keys). -/
structure TrafficData where
  speed : Option ℚ
  congestion_level : Option String
  source : Option String
deriving DecidableEq

/-- Result dict of DataFetcher.fetch_all: a dict that may or may not carry a
traffic key.  some corresponds to a truthy (non-empty) dict. -/
structure FetchedData where
  traffic : Option TrafficData
deriving DecidableEq

/-- One entry of the nearby_roads list of the road-network signal. -/
structure RoadInfo where
  name : Option String
  distance : Option ℚ
deriving DecidableEq

/-- Road-network signal record (dict with optional density and
nearby_roads keys). -/
structure RoadData where
  density : Option ℚ
  nearby_roads : Option (List RoadInfo)
deriving DecidableEq

/-- One entry of the affected_roads output list (all fields are the
strings the source builds). -/
structure AffectedRoad where
  name : String
  impact : String
  distance : String
deriving DecidableEq

/-- The data_sources dict of the congestion result: the main path reports
two booleans, the fallback path reports the single using_fallback flag. -/
inductive DataSources where
  | fromSignals (traffic_api : Bool) (road_network : Bool)
  | fallbackFlag
deriving DecidableEq

/-- Output of CongestionEngine.calculate_score. -/
structure CongestionResult where
  score : ℚ
  level : RiskLevel
  peak_hours : List String
  affected_roads : List AffectedRoad
  recommendation : String
  data_sources : DataSources
deriving DecidableEq

/-- Decimal rendering with one fractional digit, the embedding of the
format specifier .1f of the source (round-half-even on the exact rational). -/
def fmt1 (q : ℚ) : String :=
  let n : ℤ := rhe (q * 10)
  if n < 0 then
    "-" ++ toString ((-n) / 10) ++ "." ++ toString ((-n) % 10)
  else
    toString (n / 10) ++ "." ++ toString (n % 10)

/-- Step 3 of calculate_score and of the fallback: base score by type. -/
def baseScore : ProjectType → ℚ
  | ProjectType.COMMERCIAL => 0.6
  | ProjectType.RESIDENTIAL => 0.4
  | ProjectType.MIXED_USE => 0.5
  | ProjectType.INDUSTRIAL => 0.7

/-- Step 4 body: tiered traffic multiplier, with the .get
defaults of the source of 35 for speed and "moderate" for congestion_level. -/
def trafficMult (traffic : TrafficData) : ℚ :=
  let traffic_speed := traffic.speed.getD 35
  let congestion_level := traffic.congestion_level.getD "moderate"
  if traffic_speed < 20 ∨ congestion_level = "heavy" then 1.3
  else if traffic_speed < 30 ∨ congestion_level = "moderate" then 1.1
  else 1

/-- Step 4 guard: the multiplier is applied only when real_data is truthy
and carries a traffic key. -/
def trafficAdj (real_data : Option FetchedData) : ℚ :=
  match real_data with
  | some rd =>
    match rd.traffic with
    | some traffic => trafficMult traffic
    | none => 1
  | none => 1

/-- Step 5: road-density multiplier, applied only when road_data is truthy
and carries a density key. -/
def densityAdj (road_data : Option RoadData) : ℚ :=
  match road_data with
  | some rd =>
    match rd.density with
    | some density => 1 + density * 0.5
    | none => 1
  | none => 1

/-- Step 6: size factor per 100,000 sq ft, capped at 2. -/
def sizeFactor (size_sqft : ℚ) : ℚ := min (size_sqft / 100000) 2

/-- Step 7: the fixed dense-city list. -/
def denseCities : List String :=
  ["New York", "Mumbai", "Tokyo", "London", "Delhi", "Shanghai"]

/-- Step 7: dense-city multiplier. -/
def cityAdj (city : String) : ℚ := if city ∈ denseCities then 1.3 else 1

/-- Step 8: parking multiplier (Python truthiness: skipped when
parking_spaces is None or 0); the factor itself is capped at 1.5. -/
def parkingAdj : Option ℕ → ℚ
  | some n => if n ≠ 0 then min (1 + ((n : ℚ) / 1000) * 0.15) 1.5 else 1
  | none => 1

/-- Step 9: green-space multiplier (skipped when green_space_percent is
None or 0); floored at 0.6. -/
def greenAdj : Option ℚ → ℚ
  | some g => if g ≠ 0 then max (1 - (g / 100) * 0.4) 0.6 else 1
  | none => 1

/-- Steps 3-9 of calculate_score: the running product before the final
clamp, in the application order of the source. -/
def mainPre (project : ProjectInput) (real_data : Option FetchedData)
    (road_data : Option RoadData) : ℚ :=
  baseScore project.project_type * trafficAdj real_data * densityAdj road_data *
    sizeFactor project.size_sqft * cityAdj project.city *
    parkingAdj project.parking_spaces * greenAdj project.green_space_percent

/-- Step 10: score = min(score, 1.5) then score = max(score, 0.1). -/
def mainRaw (project : ProjectInput) (real_data : Option FetchedData)
    (road_data : Option RoadData) : ℚ :=
  max (min (mainPre project real_data road_data) 1.5) 0.1

/-- Step 11 of calculate_score (and the identical chain of the fallback):
risk level from the unrounded score. -/
def classifyLevel (score : ℚ) : RiskLevel :=
  if score < 0.3 then RiskLevel.LOW
  else if score < 0.6 then RiskLevel.MODERATE
  else if score < 0.9 then RiskLevel.HIGH
  else RiskLevel.SEVERE

/-- Step 12: fixed per-type peak-hours table (the dict covers every type,
so the .get default never fires). -/
def peakHours : ProjectType → List String
  | ProjectType.COMMERCIAL => ["7-9 AM", "12-2 PM", "5-7 PM"]
  | ProjectType.RESIDENTIAL => ["6-8 AM", "5-8 PM"]
  | ProjectType.MIXED_USE => ["7-9 AM", "12-2 PM", "5-8 PM"]
  | ProjectType.INDUSTRIAL => ["5-7 AM", "3-6 PM"]

/-- Step 13, signal branch: first three nearby roads with synthesized
impact percentages and default distances. -/
def mkAffected (roads : List RoadInfo) : List AffectedRoad :=
  (roads.take 3).enum.map fun p =>
    { name := p.2.name.getD ("Road " ++ toString (p.1 + 1))
      impact := "+" ++ toString (30 + p.1 * 15) ++ "%"
      distance := fmt1 (p.2.distance.getD (0.5 + (p.1 : ℚ) * 0.3)) ++ " miles" }

/-- Step 13, no-signal branch: the fixed three-entry mock list. -/
def mockAffected : List AffectedRoad :=
  [{ name := "Main Street", impact := "+45%", distance := "0.2 miles" },
   { name := "Broadway", impact := "+32%", distance := "0.4 miles" },
   { name := "Park Avenue", impact := "+28%", distance := "0.6 miles" }]

/-- Step 13 guard and dispatch. -/
def affectedRoads (road_data : Option RoadData) : List AffectedRoad :=
  match road_data with
  | some rd =>
    match rd.nearby_roads with
    | some roads => mkAffected roads
    | none => mockAffected
  | none => mockAffected

/-- Step 14: recommendation text by score threshold. -/
def recommendationText (score : ℚ) : String :=
  if 0.8 < score then
    "🚨 CRITICAL: Add bus lanes immediately. Widen Main Street. Increase public transit frequency by 40%."
  else if 0.5 < score then
    "⚠️ MODERATE: Optimize traffic signals at key intersections. Consider adding turn lanes. Monitor peak hours."
  else
    "✅ LOW IMPACT: Standard monitoring post-construction recommended. Add pedestrian crossings."

/-- The try branch of CongestionEngine.calculate_score, with the fetched
signals passed explicitly (the source obtains them from DataFetcher and
GeospatialAnalyzer inside the try block). -/
def CongestionEngine.main_path (project : ProjectInput)
    (real_data : Option FetchedData) (road_data : Option RoadData) :
    CongestionResult :=
  { score := round2 (mainRaw project real_data road_data)
    level := classifyLevel (mainRaw project real_data road_data)
    peak_hours := peakHours project.project_type
    affected_roads := affectedRoads road_data
    recommendation := recommendationText (mainRaw project real_data road_data)
    data_sources :=
      DataSources.fromSignals
        (match real_data with
         | some rd => rd.traffic.isSome
         | none => false)
        road_data.isSome }

/-- Parking factor of the fallback: unlike step 8, the factor itself is
not capped at 1.5 (only the whole score is min-ed with 1.5 afterwards). -/
def fallbackParking : Option ℕ → ℚ
  | some n => if n ≠ 0 then 1 + ((n : ℚ) / 1000) * 0.15 else 1
  | none => 1

/-- CongestionEngine._fallback_calculation, unrounded score: base times
size factor times parking factor, then only min(score, 1.5) - there is no
max(score, 0.1) on this path. -/
def fallbackRaw (project : ProjectInput) : ℚ :=
  min (baseScore project.project_type * sizeFactor project.size_sqft *
        fallbackParking project.parking_spaces) 1.5

/-- CongestionEngine._fallback_calculation. -/
def CongestionEngine.fallback_calculation (project : ProjectInput) :
    CongestionResult :=
  { score := round2 (fallbackRaw project)
    level := classifyLevel (fallbackRaw project)
    peak_hours := ["7-9 AM", "5-7 PM"]
    affected_roads := [{ name := "Main Street", impact := "+35%", distance := "0.2 miles" }]
    recommendation := "Standard monitoring recommended"
    data_sources := DataSources.fallbackFlag }

/-- CongestionEngine.calculate_score: the try/except of the source becomes
the err flag - err is true exactly when some statement of the try block
raised, in which case the except arm returns the fallback calculation. -/
def CongestionEngine.calculate_score (project : ProjectInput)
    (real_data : Option FetchedData) (road_data : Option RoadData)
    (err : Bool) : CongestionResult :=
  if err then CongestionEngine.fallback_calculation project
  else CongestionEngine.main_path project real_data road_data

/-- DataFetcher.fetch_traffic_data: the mock record carries a speed of 35
and a source tag but no congestion_level key. -/
def DataFetcher.fetch_traffic_data (_lat _lon : ℚ) : TrafficData :=
  { speed := some 35, congestion_level := none, source := some "mock" }

/-- DataFetcher.fetch_all: wraps the mock traffic record (the location
entry of the returned dict is not consulted by the engine). -/
def DataFetcher.fetch_all (lat lon : ℚ) : FetchedData :=
  { traffic := some (DataFetcher.fetch_traffic_data lat lon) }

/-- Air-quality signal record (dict with optional keys), as read by
EnvironmentalEngine.calculate_impacts. -/
structure AirData where
  aqi : Option ℚ
  noise : Option ℚ
  temperature : Option ℚ
  pm25 : Option ℚ
  pm10 : Option ℚ
deriving DecidableEq

/-- The data_sources dict of the environmental result. -/
inductive EnvSources where
  | realAqi (flag : Bool)
  | fallbackFlag
deriving DecidableEq

/-- Output of EnvironmentalEngine.calculate_impacts. -/
structure EnvResult where
  air_quality_index : ℚ
  air_quality_level : String
  pm25 : ℚ
  pm10 : ℚ
  noise_level_db : ℚ
  heat_island_effect_c : ℚ
  stormwater_runoff_increase : ℚ
  data_sources : EnvSources
deriving DecidableEq

/-- The try branch of EnvironmentalEngine.calculate_impacts, with the
fetched air-quality signal passed explicitly (the source fetches it from
DataFetcher inside the try block). -/
def EnvironmentalEngine.calculate_impacts (congestion_score : ℚ)
    (project : ProjectInput) (air_data : Option AirData) : EnvResult :=
  let aqi0 : ℚ :=
    match air_data.bind AirData.aqi with
    | some base_aqi => base_aqi + congestion_score * 30
    | none => 50 + congestion_score * 150
  let aqi := min aqi0 300
  let aqi_level :=
    if aqi < 50 then "Good"
    else if aqi < 100 then "Moderate"
    else if aqi < 150 then "Unhealthy for Sensitive Groups"
    else if aqi < 200 then "Unhealthy"
    else "Very Unhealthy"
  let noise0 : ℚ :=
    match air_data.bind AirData.noise with
    | some base_noise => base_noise + congestion_score * 15
    | none => 55 + congestion_score * 30
  let noise := min noise0 85
  let heat_effect : ℚ :=
    match air_data.bind AirData.temperature with
    | some base_temp => (base_temp + congestion_score * 1.5) - base_temp
    | none => congestion_score * 3.0
  let runoff0 : ℚ := congestion_score * 50
  let runoff :=
    match project.green_space_percent with
    | some g => if g ≠ 0 then runoff0 * (1 - g / 100) else runoff0
    | none => runoff0
  let pm25v : ℚ :=
    match air_data with
    | some a => a.pm25.getD 15
    | none => 15
  let pm10v : ℚ :=
    match air_data with
    | some a => a.pm10.getD 25
    | none => 25
  { air_quality_index := round1 aqi
    air_quality_level := aqi_level
    pm25 := round1 pm25v
    pm10 := round1 pm10v
    noise_level_db := round1 noise
    heat_island_effect_c := round1 heat_effect
    stormwater_runoff_increase := round1 runoff
    data_sources := EnvSources.realAqi (air_data.bind AirData.aqi).isSome }

/-- The 5-band AQI classification exactly as the claims state it:
below 50 Good, below 100 Moderate, below 150 Unhealthy for Sensitive
Groups, below 200 Unhealthy, else Very Unhealthy. -/
def aqiBand (aqi : ℚ) : String :=
  if aqi < 50 then "Good"
  else if aqi < 100 then "Moderate"
  else if aqi < 150 then "Unhealthy for Sensitive Groups"
  else if aqi < 200 then "Unhealthy"
  else "Very Unhealthy"

/-- Output of InfrastructureEngine.calculate_impacts. -/
structure InfraResult where
  road_capacity_utilization : ℚ
  transit_demand_increase : ℚ
  water_demand_increase : ℚ
  electricity_demand_increase : ℚ
  recommendations : List String
  stress_level : RiskLevel
deriving DecidableEq

/-- InfrastructureEngine.calculate_impacts (pure, no fallback). -/
def InfrastructureEngine.calculate_impacts (congestion_score : ℚ)
    (project : ProjectInput) : InfraResult :=
  let road_utilization := min (65 + congestion_score * 35) 100
  let transit_demand := congestion_score * 40
  let water_demand := min ((project.size_sqft / 100000) * 15) 100
  let electricity_demand := min ((project.size_sqft / 100000) * 25) 150
  let recs :=
    (if 85 < road_utilization then ["Road widening needed within 2 years"] else []) ++
    (if 25 < transit_demand then ["Increase bus frequency on nearby routes"] else []) ++
    (if 50 < water_demand then ["Upgrade water mains in this sector"] else []) ++
    (if 80 < electricity_demand then ["Substation upgrade required"] else [])
  { road_capacity_utilization := round1 road_utilization
    transit_demand_increase := round1 transit_demand
    water_demand_increase := round1 water_demand
    electricity_demand_increase := round1 electricity_demand
    recommendations := if recs = [] then ["Current infrastructure adequate"] else recs
    stress_level :=
      if 85 < road_utilization then RiskLevel.HIGH
      else if 70 < road_utilization then RiskLevel.MODERATE
      else RiskLevel.LOW }

/-- Demographic-shift record (three age bands). -/
structure Demographic where
  young_adults_18_34 : ℚ
  families_35_54 : ℚ
  seniors_65plus : ℚ
deriving DecidableEq

/-- Output of SocioeconomicEngine.calculate_impacts. -/
structure SocioResult where
  property_value_change_percent : ℚ
  jobs_created_construction : ℤ
  jobs_created_permanent : ℤ
  population_change : ℤ
  gentrification_risk : RiskLevel
  demographic_shift : Demographic
deriving DecidableEq

/-- Jobs-per-square-foot table of SocioeconomicEngine. -/
def jobsPerSqft : ProjectType → ℚ
  | ProjectType.COMMERCIAL => 0.005
  | ProjectType.RESIDENTIAL => 0.001
  | ProjectType.MIXED_USE => 0.003
  | ProjectType.INDUSTRIAL => 0.004

/-- SocioeconomicEngine.calculate_impacts (pure, no fallback). -/
def SocioeconomicEngine.calculate_impacts (congestion_score : ℚ)
    (project : ProjectInput) : SocioResult :=
  let prop_change : ℚ :=
    match project.project_type with
    | ProjectType.COMMERCIAL =>
      if congestion_score < 0.5 then 15
      else if congestion_score < 0.8 then 5
      else -10
    | ProjectType.RESIDENTIAL =>
      if congestion_score < 0.4 then 8
      else if congestion_score < 0.7 then 0
      else -15
    | ProjectType.MIXED_USE =>
      if congestion_score < 0.5 then 12
      else if congestion_score < 0.75 then 3
      else -8
    | ProjectType.INDUSTRIAL =>
      if congestion_score < 0.6 then 5
      else -5
  let total_jobs : ℤ := pyInt (project.size_sqft * jobsPerSqft project.project_type)
  let const_jobs : ℤ := pyInt ((total_jobs : ℚ) * 0.3)
  let perm_jobs : ℤ := total_jobs - const_jobs
  let pop_change : ℤ :=
    if project.project_type = ProjectType.RESIDENTIAL then
      pyInt (project.size_sqft * 0.002)
    else
      pyInt ((perm_jobs : ℚ) * 0.4)
  let gent_risk :=
    if 0.7 < congestion_score ∧ project.project_type = ProjectType.COMMERCIAL then
      RiskLevel.HIGH
    else if 0.5 < congestion_score ∨ project.project_type = ProjectType.MIXED_USE then
      RiskLevel.MODERATE
    else RiskLevel.LOW
  let demographic :=
    match project.project_type with
    | ProjectType.COMMERCIAL =>
      { young_adults_18_34 := round1 (15 + congestion_score * 15)
        families_35_54 := round1 (10 - congestion_score * 5)
        seniors_65plus := round1 (5 - congestion_score * 3) }
    | ProjectType.RESIDENTIAL =>
      { young_adults_18_34 := round1 (5 + congestion_score * 5)
        families_35_54 := round1 (20 - congestion_score * 5)
        seniors_65plus := round1 (8 + congestion_score * 2) }
    | _ =>
      { young_adults_18_34 := round1 (10 + congestion_score * 10)
        families_35_54 := round1 (15 - congestion_score * 5)
        seniors_65plus := round1 (6 - congestion_score * 1) }
  { property_value_change_percent := round1 prop_change
    jobs_created_construction := const_jobs
    jobs_created_permanent := perm_jobs
    population_change := pop_change
    gentrification_risk := gent_risk
    demographic_shift := demographic }

/-- backend/app/data/cache.py, class DataCache: the only cache class the
module defines.  Entries carry the timestamp of their set call; the
expiry window expiry_minutes is a property of the whole cache - set
accepts no per-entry ttl argument.  Time is measured in minutes. -/
structure DataCache (V : Type) where
  entries : List (String × V × ℚ)
  expiry_minutes : ℚ
deriving DecidableEq

/-- DataCache constructor; cache.py instantiates the module-global cache
with expiry_minutes=30 (the default parameter is 60). -/
def dataCacheInit (V : Type) (expiry_minutes : ℚ) : DataCache V :=
  { entries := [], expiry_minutes := expiry_minutes }

/-- DataCache.set(self, key, value): dict assignment replacing any entry
under the same key and stamping the current time.  There is no ttl
parameter. -/
def DataCache.set {V : Type} (c : DataCache V) (key : String) (value : V)
    (now : ℚ) : DataCache V :=
  { c with entries := (key, value, now) :: c.entries.filter (fun e => e.1 ≠ key) }

/-- DataCache.get(self, key): returns the stored value while its age is
below the cache-wide expiry window, and a miss afterwards (the source
also deletes the expired entry, which does not change the returned
value). -/
def DataCache.get {V : Type} (c : DataCache V) (key : String) (now : ℚ) :
    Option V :=
  match c.entries.find? (fun e => e.1 = key) with
  | some e => if now - e.2.2 < c.expiry_minutes then some e.2.1 else none
  | none => none

/-- A valid 1,000 sq ft residential project used in concrete evaluations. -/
def smallResidential : ProjectInput :=
  { project_type := ProjectType.RESIDENTIAL
    size_sqft := 1000
    latitude := 40
    longitude := -74
    city := "Springfield"
    parking_spaces := none
    green_space_percent := none }

/-- A valid 148,900 sq ft residential project: its main-path score is
0.5956, which rounds up onto the 0.6 classification threshold. -/
def boundaryResidential : ProjectInput :=
  { project_type := ProjectType.RESIDENTIAL
    size_sqft := 148900
    latitude := 40
    longitude := -74
    city := "Springfield"
    parking_spaces := none
    green_space_percent := none }

/-- A valid 100,000 sq ft commercial project in a non-dense city. -/
def commercial100k : ProjectInput :=
  { project_type := ProjectType.COMMERCIAL
    size_sqft := 100000
    latitude := 40.7128
    longitude := -74.006
    city := "Springfield"
    parking_spaces := none
    green_space_percent := none }

/-- An air-quality record carrying only a temperature baseline of 20. -/
def airTempOnly : AirData :=
  { aqi := none, noise := none, temperature := some 20, pm25 := none, pm10 := none }

/-
  Helper lemmas about the rounding and the individual factors.
-/

theorem rhe_ge_floor (q : ℚ) : Int.floor q ≤ rhe q := by
  unfold rhe
  split_ifs <;> omega

theorem rhe_le_floor_add_one (q : ℚ) : rhe q ≤ Int.floor q + 1 := by
  unfold rhe
  split_ifs <;> omega

theorem rhe_mono {x y : ℚ} (h : x ≤ y) : rhe x ≤ rhe y := by
  have hf : Int.floor x ≤ Int.floor y := Int.floor_le_floor h
  rcases lt_or_eq_of_le hf with hlt | heq
  · calc rhe x ≤ Int.floor x + 1 := rhe_le_floor_add_one x
      _ ≤ Int.floor y := by omega
      _ ≤ rhe y := rhe_ge_floor y
  · unfold rhe
    rw [← heq]
    have hr : x - (Int.floor x : ℚ) ≤ y - (Int.floor x : ℚ) := by linarith
    split_ifs <;> first | omega | (exfalso; linarith)

theorem round2_mono {x y : ℚ} (h : x ≤ y) : round2 x ≤ round2 y := by
  unfold round2
  have h2 : rhe (x * 100) ≤ rhe (y * 100) := rhe_mono (by linarith)
  have h3 : ((rhe (x * 100) : ℤ) : ℚ) ≤ ((rhe (y * 100) : ℤ) : ℚ) := Int.cast_le.mpr h2
  linarith

theorem baseScore_pos (t : ProjectType) : 0 < baseScore t := by
  cases t <;> norm_num [baseScore]

theorem trafficMult_pos (t : TrafficData) : 0 < trafficMult t := by
  dsimp only [trafficMult]
  split_ifs <;> norm_num

theorem trafficAdj_pos (rd : Option FetchedData) : 0 < trafficAdj rd := by
  cases rd with
  | none => norm_num [trafficAdj]
  | some d =>
    cases htr : d.traffic with
    | none => simp [trafficAdj, htr]
    | some t => simpa [trafficAdj, htr] using trafficMult_pos t

theorem cityAdj_pos (c : String) : 0 < cityAdj c := by
  unfold cityAdj
  split_ifs <;> norm_num

theorem parkingAdj_pos (pk : Option ℕ) : 0 < parkingAdj pk := by
  cases pk with
  | none => norm_num [parkingAdj]
  | some n =>
    simp only [parkingAdj]
    split_ifs
    · apply lt_min
      · positivity
      · norm_num
    · norm_num

theorem fallbackParking_nonneg (pk : Option ℕ) : 0 ≤ fallbackParking pk := by
  cases pk with
  | none => norm_num [fallbackParking]
  | some n =>
    simp only [fallbackParking]
    split_ifs
    · positivity
    · norm_num

theorem greenAdj_pos (g : Option ℚ) : 0 < greenAdj g := by
  cases g with
  | none => norm_num [greenAdj]
  | some v =>
    simp only [greenAdj]
    split_ifs
    · exact lt_of_lt_of_le (by norm_num) (le_max_right _ _)
    · norm_num

theorem greenAdj_le_one {g : ℚ} (h0 : 0 ≤ g) : greenAdj (some g) ≤ 1 := by
  simp only [greenAdj]
  split_ifs
  · apply max_le
    · nlinarith
    · norm_num
  · exact le_rfl

theorem greenAdj_anti {g1 g2 : ℚ} (h0 : 0 ≤ g1) (h : g1 ≤ g2) :
    greenAdj (some g2) ≤ greenAdj (some g1) := by
  by_cases h1 : g1 = 0
  · subst h1
    have e1 : greenAdj (some (0 : ℚ)) = 1 := by simp [greenAdj]
    rw [e1]
    exact greenAdj_le_one (by linarith)
  · have h2 : g2 ≠ 0 := by
      intro hc
      rw [hc] at h
      exact h1 (le_antisymm h h0)
    simp only [greenAdj, h1, h2, ne_eq, not_false_eq_true, if_true]
    apply max_le_max _ le_rfl
    nlinarith

theorem sizeFactor_nonneg {s : ℚ} (hs : 0 ≤ s) : 0 ≤ sizeFactor s := by
  unfold sizeFactor
  apply le_min
  · positivity
  · norm_num

theorem pyInt_nonneg {q : ℚ} (h : 0 ≤ q) : 0 ≤ pyInt q := by
  unfold pyInt
  rw [if_neg (not_lt.mpr h)]
  exact Int.floor_nonneg.mpr h

theorem pyInt_point3_le {t : ℤ} (h : 0 ≤ t) : pyInt ((t : ℚ) * 0.3) ≤ t := by
  have hc : (0 : ℚ) ≤ (t : ℚ) := Int.cast_nonneg.mpr h
  have h0 : (0 : ℚ) ≤ (t : ℚ) * 0.3 := by nlinarith
  unfold pyInt
  rw [if_neg (not_lt.mpr h0)]
  calc Int.floor ((t : ℚ) * 0.3) ≤ Int.floor ((t : ℚ)) := by
        apply Int.floor_le_floor
        nlinarith
    _ = t := Int.floor_intCast t

theorem jobsPerSqft_pos (t : ProjectType) : 0 < jobsPerSqft t := by
  cases t <;> norm_num [jobsPerSqft]

/-- C2: on the error path calculate_score raises nothing and returns the
fallback result, whose score is base score times min(size/100000, 2) times
the uncapped parking factor (when parking is present and nonzero), the
whole product clamped to at most 1.5 and reported through the round(score, 2) of the source; the result carries the fixed one-entry affected_roads
list, the fixed two-entry peak_hours list, and the fallback
data_sources marker. -/
theorem c2_fallback_shape (project : ProjectInput) (real_data : Option FetchedData)
    (road_data : Option RoadData) :
    CongestionEngine.calculate_score project real_data road_data true =
      CongestionEngine.fallback_calculation project ∧
    (CongestionEngine.fallback_calculation project).score =
      round2 (min (baseScore project.project_type * min (project.size_sqft / 100000) 2 *
        (match project.parking_spaces with
         | some n => if n ≠ 0 then 1 + ((n : ℚ) / 1000) * 0.15 else 1
         | none => 1)) 1.5) ∧
    (CongestionEngine.fallback_calculation project).affected_roads =
      [{ name := "Main Street", impact := "+35%", distance := "0.2 miles" }] ∧
    (CongestionEngine.fallback_calculation project).peak_hours = ["7-9 AM", "5-7 PM"] ∧
    (CongestionEngine.fallback_calculation project).data_sources = DataSources.fallbackFlag :=
  ⟨rfl, rfl, rfl, rfl, rfl⟩

/-- C4 counterexample: with a temperature baseline present in the air
signal and congestion score 1, the returned heat-island effect is 1.5,
not the claimed 1 x 3.0: the baseline path does not report the same delta
as the formula-only path. -/
theorem c4_heat_counterexample :
    (EnvironmentalEngine.calculate_impacts 1 commercial100k
      (some airTempOnly)).heat_island_effect_c ≠ 1 * 3.0 := by
  norm_num [EnvironmentalEngine.calculate_impacts, airTempOnly, Option.bind, round1, rhe]

/-- C4 amended: the returned heat-island effect (reported through the round(x, 1)
of the source) equals congestionScore x 1.5 when a temperature
baseline is present in the air signal and congestionScore x 3.0
otherwise - the baseline path reports half the formula-only increment. -/
theorem c4_heat_amended (congestion_score : ℚ) (project : ProjectInput)
    (air_data : Option AirData) :
    (EnvironmentalEngine.calculate_impacts congestion_score project
      air_data).heat_island_effect_c =
      round1 (if (air_data.bind AirData.temperature).isSome then congestion_score * 1.5
              else congestion_score * 3.0) := by
  cases h : air_data.bind AirData.temperature with
  | none => simp [EnvironmentalEngine.calculate_impacts, h]
  | some base_temp => simp [EnvironmentalEngine.calculate_impacts, h]

/-- C7: the returned air_quality_index equals baseline plus
congestionScore x 30 when a real AQI baseline is present and
50 plus congestionScore x 150 otherwise, clamped to at most 300 (the
index is reported through the round(x, 1) of the source); and the returned
air_quality_level is the 5-band classification of that clamped AQI. -/
theorem c7_aqi_formula (congestion_score : ℚ) (project : ProjectInput)
    (air_data : Option AirData) :
    (EnvironmentalEngine.calculate_impacts congestion_score project
      air_data).air_quality_index =
      round1 (min (match air_data.bind AirData.aqi with
                   | some base_aqi => base_aqi + congestion_score * 30
                   | none => 50 + congestion_score * 150) 300) ∧
    (EnvironmentalEngine.calculate_impacts congestion_score project
      air_data).air_quality_level =
      aqiBand (min (match air_data.bind AirData.aqi with
                    | some base_aqi => base_aqi + congestion_score * 30
                    | none => 50 + congestion_score * 150) 300) := by
  cases h : air_data.bind AirData.aqi with
  | none => simp [EnvironmentalEngine.calculate_impacts, aqiBand, h]
  | some base_aqi => simp [EnvironmentalEngine.calculate_impacts, aqiBand, h]

/-- C8: road_capacity_utilization equals min(65 + congestionScore x 35,
100) (reported through the round(x, 1) of the source), stress_level is HIGH
above utilization 85, MODERATE above 70, else LOW; and at congestion
score 0.9 the utilization is exactly 96.5 with stress HIGH and the
road-widening recommendation present, for every project. -/
theorem c8_road_utilization (congestion_score : ℚ) (project : ProjectInput) :
    (InfrastructureEngine.calculate_impacts congestion_score
      project).road_capacity_utilization =
      round1 (min (65 + congestion_score * 35) 100) ∧
    (InfrastructureEngine.calculate_impacts congestion_score project).stress_level =
      (if 85 < min (65 + congestion_score * 35) 100 then RiskLevel.HIGH
       else if 70 < min (65 + congestion_score * 35) 100 then RiskLevel.MODERATE
       else RiskLevel.LOW) ∧
    (InfrastructureEngine.calculate_impacts 0.9
      project).road_capacity_utilization = 96.5 ∧
    (InfrastructureEngine.calculate_impacts 0.9 project).stress_level =
      RiskLevel.HIGH ∧
    "Road widening needed within 2 years" ∈
      (InfrastructureEngine.calculate_impacts 0.9 project).recommendations := by
  refine ⟨rfl, rfl, ?_, ?_, ?_⟩
  · norm_num [InfrastructureEngine.calculate_impacts, min_def, round1, rhe]
  · norm_num [InfrastructureEngine.calculate_impacts, min_def]
  · norm_num [InfrastructureEngine.calculate_impacts, min_def]
    split_ifs <;>
      first
        | exact List.mem_cons_self _ _
        | simp_all

/-- C9: total jobs are size_sqft times the per-type constant truncated to
an integer (COMMERCIAL 0.005, RESIDENTIAL 0.001, MIXED_USE 0.003,
INDUSTRIAL 0.004), construction jobs are 30 percent of that total
truncated to an integer, permanent jobs are the remainder; construction
plus permanent equals the total and both are non-negative. -/
theorem c9_jobs (congestion_score : ℚ) (project : ProjectInput)
    (hsize : 0 < project.size_sqft) :
    (SocioeconomicEngine.calculate_impacts congestion_score
      project).jobs_created_construction =
      pyInt ((pyInt (project.size_sqft * jobsPerSqft project.project_type) : ℚ) * 0.3) ∧
    (SocioeconomicEngine.calculate_impacts congestion_score
      project).jobs_created_permanent =
      pyInt (project.size_sqft * jobsPerSqft project.project_type) -
        pyInt ((pyInt (project.size_sqft * jobsPerSqft project.project_type) : ℚ) * 0.3) ∧
    jobsPerSqft ProjectType.COMMERCIAL = 0.005 ∧
    jobsPerSqft ProjectType.RESIDENTIAL = 0.001 ∧
    jobsPerSqft ProjectType.MIXED_USE = 0.003 ∧
    jobsPerSqft ProjectType.INDUSTRIAL = 0.004 ∧
    (SocioeconomicEngine.calculate_impacts congestion_score
        project).jobs_created_construction +
      (SocioeconomicEngine.calculate_impacts congestion_score
        project).jobs_created_permanent =
      pyInt (project.size_sqft * jobsPerSqft project.project_type) ∧
    0 ≤ (SocioeconomicEngine.calculate_impacts congestion_score
      project).jobs_created_construction ∧
    0 ≤ (SocioeconomicEngine.calculate_impacts congestion_score
      project).jobs_created_permanent := by
  have htot : (0 : ℤ) ≤ pyInt (project.size_sqft * jobsPerSqft project.project_type) := by
    apply pyInt_nonneg
    have := jobsPerSqft_pos project.project_type
    positivity
  have hcast : (0 : ℚ) ≤
      (pyInt (project.size_sqft * jobsPerSqft project.project_type) : ℚ) :=
    Int.cast_nonneg.mpr htot
  refine ⟨rfl, rfl, rfl, rfl, rfl, rfl, ?_, ?_, ?_⟩
  · show pyInt _ + (pyInt _ - pyInt _) = pyInt _
    ring
  · show (0 : ℤ) ≤ pyInt _
    apply pyInt_nonneg
    nlinarith
  · show (0 : ℤ) ≤ pyInt _ - pyInt _
    have := pyInt_point3_le htot
    omega

/-- C9 witness: the jobs identities of c9_jobs evaluated at the concrete
100,000 sq ft commercial project with congestion score one half. -/
theorem c9_jobs_witness :
    0 < commercial100k.size_sqft ∧
    ((SocioeconomicEngine.calculate_impacts (1/2)
        commercial100k).jobs_created_construction =
      pyInt ((pyInt (commercial100k.size_sqft * jobsPerSqft commercial100k.project_type) : ℚ) * 0.3) ∧
    (SocioeconomicEngine.calculate_impacts (1/2)
        commercial100k).jobs_created_permanent =
      pyInt (commercial100k.size_sqft * jobsPerSqft commercial100k.project_type) -
        pyInt ((pyInt (commercial100k.size_sqft * jobsPerSqft commercial100k.project_type) : ℚ) * 0.3) ∧
    jobsPerSqft ProjectType.COMMERCIAL = 0.005 ∧
    jobsPerSqft ProjectType.RESIDENTIAL = 0.001 ∧
    jobsPerSqft ProjectType.MIXED_USE = 0.003 ∧
    jobsPerSqft ProjectType.INDUSTRIAL = 0.004 ∧
    (SocioeconomicEngine.calculate_impacts (1/2)
        commercial100k).jobs_created_construction +
      (SocioeconomicEngine.calculate_impacts (1/2)
        commercial100k).jobs_created_permanent =
      pyInt (commercial100k.size_sqft * jobsPerSqft commercial100k.project_type) ∧
    0 ≤ (SocioeconomicEngine.calculate_impacts (1/2)
      commercial100k).jobs_created_construction ∧
    0 ≤ (SocioeconomicEngine.calculate_impacts (1/2)
      commercial100k).jobs_created_permanent) :=
  ⟨by norm_num [commercial100k],
   c9_jobs (1/2) commercial100k (by norm_num [commercial100k])⟩

/-- C10: the traffic adjustment substitutes the defaults speed 35 and
congestion_level "moderate" before evaluating the tiers, so a traffic
record that omits congestion_level and reports speed at least 30 still
receives the 1.1 moderate-tier multiplier; in particular the mock
mock record of the fetcher (speed 35, no congestion_level) yields 1.1. -/
theorem c10_traffic_defaults :
    (∀ t : TrafficData,
      trafficMult t =
        trafficMult { speed := some (t.speed.getD 35),
                      congestion_level := some (t.congestion_level.getD "moderate"),
                      source := t.source } ∧
      (t.congestion_level = none → 30 ≤ t.speed.getD 35 → trafficMult t = 1.1)) ∧
    (∀ lat lon : ℚ,
      (DataFetcher.fetch_all lat lon).traffic =
        some { speed := some 35, congestion_level := none, source := some "mock" } ∧
      trafficAdj (some (DataFetcher.fetch_all lat lon)) = 1.1) := by
  constructor
  · intro t
    constructor
    · simp [trafficMult]
    · intro h1 h2
      dsimp only [trafficMult]
      rw [h1]
      simp only [Option.getD_none]
      rw [if_neg, if_pos]
      · exact Or.inr trivial
      · refine not_or.mpr ⟨by linarith, by simp⟩
  · intro lat lon
    refine ⟨rfl, ?_⟩
    norm_num [trafficAdj, DataFetcher.fetch_all, DataFetcher.fetch_traffic_data,
      trafficMult]
    decide

/-- C10 witness: the mock traffic record omits congestion_level, reports
speed 35, and receives the 1.1 multiplier. -/
theorem c10_traffic_defaults_witness :
    (DataFetcher.fetch_traffic_data 0 0).congestion_level = none ∧
    (30 : ℚ) ≤ (DataFetcher.fetch_traffic_data 0 0).speed.getD 35 ∧
    trafficMult (DataFetcher.fetch_traffic_data 0 0) = 1.1 :=
  ⟨rfl, by norm_num [DataFetcher.fetch_traffic_data],
   (c10_traffic_defaults.1 (DataFetcher.fetch_traffic_data 0 0)).2 rfl
     (by norm_num [DataFetcher.fetch_traffic_data])⟩

/-- C1 counterexample: the claim requires the returned score to stay in
[0.1, 1.5] on the fallback path as well, but _fallback_calculation only
applies min(score, 1.5) and no lower clamp: a valid 1,000 sq ft
residential project yields fallback score 0.4 x 0.01 = 0.004, reported
as 0.0, strictly below 0.1. -/
theorem c1_clamp_counterexample :
    0 < smallResidential.size_sqft ∧
    (CongestionEngine.calculate_score smallResidential none none true).score < 0.1 := by
  constructor
  · norm_num [smallResidential]
  · norm_num [CongestionEngine.calculate_score, CongestionEngine.fallback_calculation,
      fallbackRaw, fallbackParking, baseScore, sizeFactor, smallResidential,
      round2, rhe, min_def]

/-- C1 amended: for every valid ProjectInput the main-path score lies in
[0.1, 1.5]; the fallback-path score satisfies only 0 ≤ score ≤ 1.5,
because the fallback applies min(score, 1.5) but no lower clamp. -/
theorem c1_clamp_amended (project : ProjectInput) (real_data : Option FetchedData)
    (road_data : Option RoadData) (hsize : 0 < project.size_sqft) :
    (0.1 ≤ (CongestionEngine.calculate_score project real_data road_data false).score ∧
      (CongestionEngine.calculate_score project real_data road_data false).score ≤ 1.5) ∧
    (0 ≤ (CongestionEngine.calculate_score project real_data road_data true).score ∧
      (CongestionEngine.calculate_score project real_data road_data true).score ≤ 1.5) := by
  have e01 : round2 (0.1 : ℚ) = 0.1 := by norm_num [round2, rhe]
  have e15 : round2 (1.5 : ℚ) = 1.5 := by norm_num [round2, rhe]
  have e0 : round2 (0 : ℚ) = 0 := by norm_num [round2, rhe]
  refine ⟨⟨?_, ?_⟩, ?_, ?_⟩
  · show (0.1 : ℚ) ≤ round2 (mainRaw project real_data road_data)
    calc (0.1 : ℚ) = round2 0.1 := e01.symm
      _ ≤ round2 (mainRaw project real_data road_data) :=
        round2_mono (le_max_right _ _)
  · show round2 (mainRaw project real_data road_data) ≤ 1.5
    calc round2 (mainRaw project real_data road_data) ≤ round2 1.5 :=
        round2_mono (max_le (min_le_right _ _) (by norm_num))
      _ = 1.5 := e15
  · show (0 : ℚ) ≤ round2 (fallbackRaw project)
    have hnn : (0 : ℚ) ≤ fallbackRaw project := by
      apply le_min
      · exact mul_nonneg (mul_nonneg (baseScore_pos _).le (sizeFactor_nonneg hsize.le))
          (fallbackParking_nonneg _)
      · norm_num
    calc (0 : ℚ) = round2 0 := e0.symm
      _ ≤ round2 (fallbackRaw project) := round2_mono hnn
  · show round2 (fallbackRaw project) ≤ 1.5
    calc round2 (fallbackRaw project) ≤ round2 1.5 :=
        round2_mono (min_le_right _ _)
      _ = 1.5 := e15

/-- C1 witness: the amended bounds evaluated at the concrete commercial
project. -/
theorem c1_clamp_amended_witness :
    (0.1 ≤ (CongestionEngine.calculate_score commercial100k none none false).score ∧
      (CongestionEngine.calculate_score commercial100k none none false).score ≤ 1.5) ∧
    (0 ≤ (CongestionEngine.calculate_score commercial100k none none true).score ∧
      (CongestionEngine.calculate_score commercial100k none none true).score ≤ 1.5) :=
  c1_clamp_amended commercial100k none none (by norm_num [commercial100k])

theorem classifyLevel_LOW_iff (s : ℚ) : classifyLevel s = RiskLevel.LOW ↔ s < 3/10 := by
  unfold classifyLevel
  split_ifs with h1 h2 h3 <;> simp <;> linarith

theorem classifyLevel_MODERATE_iff (s : ℚ) :
    classifyLevel s = RiskLevel.MODERATE ↔ 3/10 ≤ s ∧ s < 3/5 := by
  unfold classifyLevel
  split_ifs with h1 h2 h3 <;> simp <;>
    first
      | constructor <;> linarith
      | (intro h; linarith)

theorem classifyLevel_HIGH_iff (s : ℚ) :
    classifyLevel s = RiskLevel.HIGH ↔ 3/5 ≤ s ∧ s < 9/10 := by
  unfold classifyLevel
  split_ifs with h1 h2 h3 <;> simp <;>
    first
      | constructor <;> linarith
      | (intro h; linarith)

theorem classifyLevel_SEVERE_iff (s : ℚ) :
    classifyLevel s = RiskLevel.SEVERE ↔ 9/10 ≤ s := by
  unfold classifyLevel
  split_ifs with h1 h2 h3 <;> simp <;> linarith

/-- C3 counterexample: the level is classified from the score before the
final round(score, 2), so the pair of returned fields can violate the
claimed table: a 148,900 sq ft residential project (no signals) has
unrounded score 0.5956, classified MODERATE, while the returned score
field is 0.6 - so level = MODERATE holds with the returned score outside
[0.3, 0.6), falsifying the claimed biconditional. -/
theorem c3_level_counterexample :
    ¬ (((CongestionEngine.calculate_score boundaryResidential none none false).level =
          RiskLevel.MODERATE) ↔
       (3/10 ≤ (CongestionEngine.calculate_score boundaryResidential none none false).score ∧
        (CongestionEngine.calculate_score boundaryResidential none none false).score < 3/5)) := by
  have hcity : cityAdj "Springfield" = 1 := by
    simp [cityAdj, denseCities]
  have hpre : mainPre boundaryResidential none none = 1489/2500 := by
    simp only [mainPre, boundaryResidential, baseScore, trafficAdj, densityAdj,
      sizeFactor, parkingAdj, greenAdj, hcity]
    norm_num [min_def]
  have hraw : mainRaw boundaryResidential none none = 1489/2500 := by
    rw [mainRaw, hpre]
    norm_num [min_def, max_def]
  have hs : (CongestionEngine.calculate_score boundaryResidential none none false).score
      = 3/5 := by
    show round2 (mainRaw boundaryResidential none none) = 3/5
    rw [hraw]
    norm_num [round2, rhe]
  have hl : (CongestionEngine.calculate_score boundaryResidential none none false).level
      = RiskLevel.MODERATE := by
    show classifyLevel (mainRaw boundaryResidential none none) = RiskLevel.MODERATE
    rw [hraw]
    norm_num [classifyLevel]
  rw [hs, hl]
  norm_num

/-- C3 amended: the returned level is the threshold classification of the
score before the final round(score, 2) (on both paths), with the claimed
iff table - below 0.3 LOW, in [0.3, 0.6) MODERATE, in [0.6, 0.9) HIGH,
at least 0.9 SEVERE, in particular a pre-rounding score of exactly 0.6 is
HIGH; the returned score field is that pre-rounding score rounded to two
decimals and can land on a threshold from below. -/
theorem c3_level_amended (project : ProjectInput) (real_data : Option FetchedData)
    (road_data : Option RoadData) (err : Bool) :
    ((CongestionEngine.calculate_score project real_data road_data err).level =
        classifyLevel
          (if err then fallbackRaw project else mainRaw project real_data road_data) ∧
      (CongestionEngine.calculate_score project real_data road_data err).score =
        round2
          (if err then fallbackRaw project else mainRaw project real_data road_data)) ∧
    (∀ s : ℚ,
      (classifyLevel s = RiskLevel.LOW ↔ s < 3/10) ∧
      (classifyLevel s = RiskLevel.MODERATE ↔ 3/10 ≤ s ∧ s < 3/5) ∧
      (classifyLevel s = RiskLevel.HIGH ↔ 3/5 ≤ s ∧ s < 9/10) ∧
      (classifyLevel s = RiskLevel.SEVERE ↔ 9/10 ≤ s)) ∧
    classifyLevel (3/5) = RiskLevel.HIGH := by
  refine ⟨?_, ?_, ?_⟩
  · cases err
    · exact ⟨rfl, rfl⟩
    · exact ⟨rfl, rfl⟩
  · intro s
    exact ⟨classifyLevel_LOW_iff s, classifyLevel_MODERATE_iff s,
      classifyLevel_HIGH_iff s, classifyLevel_SEVERE_iff s⟩
  · norm_num [classifyLevel]

/-- C5: code bug - congestion_engine.py line 149 calls
self.cache.set(cache_key, result, ttl=3600) intending a one-hour expiry,
but cache.py exports no Cache class and its DataCache.set accepts only
(key, value): the call cannot succeed, the raised TypeError is swallowed
by the except arm, and the caller receives the fallback result instead of
the assembled one.  The last conjunct shows the only available store:
an entry set in the module-global DataCache (expiry_minutes=30) is
already gone 45 minutes later, not retained for the claimed hour. -/
theorem c5_cache_write_bug :
    CongestionEngine.calculate_score commercial100k none none true =
      CongestionEngine.fallback_calculation commercial100k ∧
    (CongestionEngine.calculate_score commercial100k none none true).data_sources =
      DataSources.fallbackFlag ∧
    CongestionEngine.calculate_score commercial100k none none true ≠
      CongestionEngine.main_path commercial100k none none ∧
    DataCache.get
      (DataCache.set (dataCacheInit ℚ 30) "congestion_40.7128_-74.006_commercial" 0.6 0)
      "congestion_40.7128_-74.006_commercial" 45 = none := by
  refine ⟨rfl, rfl, ?_, ?_⟩
  · intro h
    have hds := congrArg CongestionResult.data_sources h
    simp [CongestionEngine.calculate_score, CongestionEngine.fallback_calculation,
      CongestionEngine.main_path] at hds
  · norm_num [DataCache.get, DataCache.set, dataCacheInit, List.filter, List.find?]

/-- C6: holding all other inputs and signals (and the error condition)
fixed, the returned congestion score is monotone: non-decreasing in
size_sqft for sizes below the 200,000 sq ft cap, and non-increasing in
green_space_percent on [0, 100]. -/
theorem c6_monotonicity (project : ProjectInput) (real_data : Option FetchedData)
    (road_data : Option RoadData) (err : Bool) (s1 s2 g1 g2 : ℚ)
    (hs0 : 0 < s1) (hs : s1 ≤ s2) (hcap : s2 < 200000)
    (hg0 : 0 ≤ g1) (hg : g1 ≤ g2) (_hg100 : g2 ≤ 100) :
    (CongestionEngine.calculate_score { project with size_sqft := s1 }
        real_data road_data err).score ≤
      (CongestionEngine.calculate_score { project with size_sqft := s2 }
        real_data road_data err).score ∧
    (CongestionEngine.calculate_score { project with green_space_percent := some g2 }
        real_data road_data err).score ≤
      (CongestionEngine.calculate_score { project with green_space_percent := some g1 }
        real_data road_data err).score := by
  cases err with
  | true =>
    constructor
    · show round2 (fallbackRaw { project with size_sqft := s1 }) ≤
        round2 (fallbackRaw { project with size_sqft := s2 })
      apply round2_mono
      apply min_le_min _ le_rfl
      apply mul_le_mul_of_nonneg_right _ (fallbackParking_nonneg _)
      apply mul_le_mul_of_nonneg_left _ (baseScore_pos _).le
      exact min_le_min (by linarith) le_rfl
    · exact le_of_eq rfl
  | false =>
    have hbase := baseScore_pos project.project_type
    have hT := trafficAdj_pos real_data
    have hCt := cityAdj_pos project.city
    have hPk := parkingAdj_pos project.parking_spaces
    constructor
    · show round2 (mainRaw { project with size_sqft := s1 } real_data road_data) ≤
        round2 (mainRaw { project with size_sqft := s2 } real_data road_data)
      have hG := greenAdj_pos project.green_space_percent
      have hpre1 : mainPre { project with size_sqft := s1 } real_data road_data =
          baseScore project.project_type * trafficAdj real_data * densityAdj road_data *
            (s1 / 100000) * cityAdj project.city * parkingAdj project.parking_spaces *
            greenAdj project.green_space_percent := by
        show baseScore project.project_type * trafficAdj real_data * densityAdj road_data *
            sizeFactor s1 * cityAdj project.city * parkingAdj project.parking_spaces *
            greenAdj project.green_space_percent = _
        rw [sizeFactor, min_eq_left (by linarith : s1 / 100000 ≤ 2)]
      have hpre2 : mainPre { project with size_sqft := s2 } real_data road_data =
          baseScore project.project_type * trafficAdj real_data * densityAdj road_data *
            (s2 / 100000) * cityAdj project.city * parkingAdj project.parking_spaces *
            greenAdj project.green_space_percent := by
        show baseScore project.project_type * trafficAdj real_data * densityAdj road_data *
            sizeFactor s2 * cityAdj project.city * parkingAdj project.parking_spaces *
            greenAdj project.green_space_percent = _
        rw [sizeFactor, min_eq_left (by linarith : s2 / 100000 ≤ 2)]
      rcases le_or_lt 0 (densityAdj road_data) with hD | hD
      · apply round2_mono
        unfold mainRaw
        rw [hpre1, hpre2]
        have hK : 0 ≤ baseScore project.project_type * trafficAdj real_data *
            densityAdj road_data * cityAdj project.city *
            parkingAdj project.parking_spaces *
            greenAdj project.green_space_percent :=
          mul_nonneg (mul_nonneg (mul_nonneg (mul_nonneg
            (mul_nonneg hbase.le hT.le) hD) hCt.le) hPk.le) hG.le
        have key : baseScore project.project_type * trafficAdj real_data *
            densityAdj road_data * (s1 / 100000) * cityAdj project.city *
            parkingAdj project.parking_spaces *
            greenAdj project.green_space_percent ≤
            baseScore project.project_type * trafficAdj real_data *
            densityAdj road_data * (s2 / 100000) * cityAdj project.city *
            parkingAdj project.parking_spaces *
            greenAdj project.green_space_percent := by
          have e1 : baseScore project.project_type * trafficAdj real_data *
              densityAdj road_data * (s1 / 100000) * cityAdj project.city *
              parkingAdj project.parking_spaces *
              greenAdj project.green_space_percent =
              (baseScore project.project_type * trafficAdj real_data *
                densityAdj road_data * cityAdj project.city *
                parkingAdj project.parking_spaces *
                greenAdj project.green_space_percent) * (s1 / 100000) := by ring
          have e2 : baseScore project.project_type * trafficAdj real_data *
              densityAdj road_data * (s2 / 100000) * cityAdj project.city *
              parkingAdj project.parking_spaces *
              greenAdj project.green_space_percent =
              (baseScore project.project_type * trafficAdj real_data *
                densityAdj road_data * cityAdj project.city *
                parkingAdj project.parking_spaces *
                greenAdj project.green_space_percent) * (s2 / 100000) := by ring
          rw [e1, e2]
          exact mul_le_mul_of_nonneg_left (by linarith) hK
        exact max_le_max (min_le_min key le_rfl) le_rfl
      · have hs2pos : 0 < s2 := lt_of_lt_of_le hs0 hs
        have hneg1 : mainPre { project with size_sqft := s1 } real_data road_data ≤ 0 := by
          rw [hpre1]
          have e : baseScore project.project_type * trafficAdj real_data *
              densityAdj road_data * (s1 / 100000) * cityAdj project.city *
              parkingAdj project.parking_spaces *
              greenAdj project.green_space_percent =
              (baseScore project.project_type * trafficAdj real_data * (s1 / 100000) *
                cityAdj project.city * parkingAdj project.parking_spaces *
                greenAdj project.green_space_percent) * densityAdj road_data := by ring
          rw [e]
          have hp : 0 < baseScore project.project_type * trafficAdj real_data *
              (s1 / 100000) * cityAdj project.city * parkingAdj project.parking_spaces *
              greenAdj project.green_space_percent :=
            mul_pos (mul_pos (mul_pos (mul_pos (mul_pos hbase hT)
              (div_pos hs0 (by norm_num))) hCt) hPk) hG
          exact mul_nonpos_iff.mpr (Or.inl ⟨hp.le, hD.le⟩)
        have hneg2 : mainPre { project with size_sqft := s2 } real_data road_data ≤ 0 := by
          rw [hpre2]
          have e : baseScore project.project_type * trafficAdj real_data *
              densityAdj road_data * (s2 / 100000) * cityAdj project.city *
              parkingAdj project.parking_spaces *
              greenAdj project.green_space_percent =
              (baseScore project.project_type * trafficAdj real_data * (s2 / 100000) *
                cityAdj project.city * parkingAdj project.parking_spaces *
                greenAdj project.green_space_percent) * densityAdj road_data := by ring
          rw [e]
          have hp : 0 < baseScore project.project_type * trafficAdj real_data *
              (s2 / 100000) * cityAdj project.city * parkingAdj project.parking_spaces *
              greenAdj project.green_space_percent :=
            mul_pos (mul_pos (mul_pos (mul_pos (mul_pos hbase hT)
              (div_pos hs2pos (by norm_num))) hCt) hPk) hG
          exact mul_nonpos_iff.mpr (Or.inl ⟨hp.le, hD.le⟩)
        have hraw1 : mainRaw { project with size_sqft := s1 } real_data road_data = 0.1 := by
          unfold mainRaw
          rw [min_eq_left (le_trans hneg1 (by norm_num)),
            max_eq_right (le_trans hneg1 (by norm_num))]
        have hraw2 : mainRaw { project with size_sqft := s2 } real_data road_data = 0.1 := by
          unfold mainRaw
          rw [min_eq_left (le_trans hneg2 (by norm_num)),
            max_eq_right (le_trans hneg2 (by norm_num))]
        rw [hraw1, hraw2]
    · show round2 (mainRaw { project with green_space_percent := some g2 }
          real_data road_data) ≤
        round2 (mainRaw { project with green_space_percent := some g1 }
          real_data road_data)
      have hpre1 : mainPre { project with green_space_percent := some g1 }
          real_data road_data =
          (baseScore project.project_type * trafficAdj real_data *
            densityAdj road_data * sizeFactor project.size_sqft *
            cityAdj project.city * parkingAdj project.parking_spaces) *
            greenAdj (some g1) := rfl
      have hpre2 : mainPre { project with green_space_percent := some g2 }
          real_data road_data =
          (baseScore project.project_type * trafficAdj real_data *
            densityAdj road_data * sizeFactor project.size_sqft *
            cityAdj project.city * parkingAdj project.parking_spaces) *
            greenAdj (some g2) := rfl
      rcases le_or_lt 0 (baseScore project.project_type * trafficAdj real_data *
          densityAdj road_data * sizeFactor project.size_sqft *
          cityAdj project.city * parkingAdj project.parking_spaces) with hM | hM
      · apply round2_mono
        unfold mainRaw
        rw [hpre1, hpre2]
        exact max_le_max (min_le_min
          (mul_le_mul_of_nonneg_left (greenAdj_anti hg0 hg) hM) le_rfl) le_rfl
      · have hneg1 : mainPre { project with green_space_percent := some g1 }
            real_data road_data ≤ 0 := by
          rw [hpre1]
          exact mul_nonpos_iff.mpr (Or.inr ⟨hM.le, (greenAdj_pos _).le⟩)
        have hneg2 : mainPre { project with green_space_percent := some g2 }
            real_data road_data ≤ 0 := by
          rw [hpre2]
          exact mul_nonpos_iff.mpr (Or.inr ⟨hM.le, (greenAdj_pos _).le⟩)
        have hraw1 : mainRaw { project with green_space_percent := some g1 }
            real_data road_data = 0.1 := by
          unfold mainRaw
          rw [min_eq_left (le_trans hneg1 (by norm_num)),
            max_eq_right (le_trans hneg1 (by norm_num))]
        have hraw2 : mainRaw { project with green_space_percent := some g2 }
            real_data road_data = 0.1 := by
          unfold mainRaw
          rw [min_eq_left (le_trans hneg2 (by norm_num)),
            max_eq_right (le_trans hneg2 (by norm_num))]
        rw [hraw1, hraw2]

/-- C6 witness: both monotonicity inequalities evaluated at concrete
sizes 50,000 ≤ 100,000 sq ft and green-space percentages 10 ≤ 20. -/
theorem c6_monotonicity_witness :
    (CongestionEngine.calculate_score { commercial100k with size_sqft := 50000 }
        none none false).score ≤
      (CongestionEngine.calculate_score { commercial100k with size_sqft := 100000 }
        none none false).score ∧
    (CongestionEngine.calculate_score
        { commercial100k with green_space_percent := some 20 } none none false).score ≤
      (CongestionEngine.calculate_score
        { commercial100k with green_space_percent := some 10 } none none false).score :=
  c6_monotonicity commercial100k none none false 50000 100000 10 20
    (by norm_num) (by norm_num) (by norm_num) (by norm_num) (by norm_num) (by norm_num)
